import Mathlib

/-!
Shallow embedding of the scheduling core of the Rush kernel
(src/kernel/sched.c, src/kernel/task.c, src/kernel/task.h,
src/arch/task_arch.c).

Pointers to `task_t` objects are modelled as natural-number addresses
(`0` plays the role of `NULL` for the current-task pointer); the set of
live `task_t` objects is a total map from addresses to records, and the
run queue maps a priority index to the address stored in that slot
(`none` = `NULL`).  Machine integers are modelled as `Nat`; the only
place where fixed-width behaviour matters is the `uint8_t` scan index of
`sched_get_next_task`, whose decrement is taken literally as
`(idx + 255) % 256`.
-/

set_option maxRecDepth 40000

/-- task_state_t from src/kernel/task.h. -/
inductive task_state_t where
  | READY
  | RUNNING
  | BLOCKED
deriving DecidableEq

/-- task_id_t from src/kernel/task.h. -/
structure task_id_t where
  vms_id : Nat
  thread_id : Nat
deriving DecidableEq

/-- thread_t: the saved-register image of a task (processor.h is not in
src/; the fields are exactly the ones src/kernel/task.c writes: `ra`,
`sp` and the callee-saved array `s[0..11]`). -/
structure thread_t where
  ra : Nat
  sp : Nat
  s : Fin 12 → Nat

/-- task_t from src/kernel/task.h: identity, priority, state and the
saved thread context. -/
structure task_t where
  task_id : task_id_t
  prio : Nat
  state : task_state_t
  thread : thread_t

/-- ax_return_t result convention (common.h is not in src/; the spec
describes a success sentinel versus a generic failure code). -/
inductive ax_return_t where
  | AX_OK
  | AX_ERROR
deriving DecidableEq

/-- MAX_PRIO from src/kernel/sched.c: the run queue has indices
0 .. MAX_PRIO - 1. -/
def MAX_PRIO : Nat := 255

/-- IDLE_PRIO from src/kernel/sched.c. -/
def IDLE_PRIO : Nat := 0

/-- The run queue: priority index to stored task address (`none` is a
NULL slot). -/
def run_queue_t : Type := Nat → Option Nat

/-- The scan loop of sched_get_next_task, made total by fuel.  One C
iteration tests `run_queue[prio_idx]` and, when the slot is NULL, does
`prio_idx -= 1` on a `uint8_t`, i.e. `(idx + 255) % 256`.  The C loop
condition `prio_idx >= 0` is always true for an unsigned index, so the
loop can only leave through the `break`; running out of fuel models a
scan that has not broken out (the C code would walk past index 0 into
an out-of-bounds read at 255 and keep wrapping). -/
def sched_scan (q : run_queue_t) : Nat → Nat → Option Nat
  | 0, _ => none
  | fuel + 1, idx =>
      if (q idx).isSome then some idx else sched_scan q fuel ((idx + 255) % 256)

/-- sched_get_next_task from src/kernel/sched.c: start the scan at
MAX_PRIO - 1 = 254 and return the slot the scan broke at.  Fuel
MAX_PRIO = 255 is exactly enough for the descending pass 254, ..., 0;
the `none` case is the C loop failing to break within that pass. -/
def sched_get_next_task (q : run_queue_t) : Option Nat :=
  match sched_scan q MAX_PRIO ( MAX_PRIO - 1) with
  | some i => q i
  | none => none

/-- The scheduler's global state: the heap of task_t objects, the
run_queue array and the current_task pointer. -/
structure sched_state_t where
  heap : Nat → task_t
  queue : run_queue_t
  current : Nat

/-- task_set_state (src/kernel/task.c territory, used by sched_run):
mutate the state field of the task object at address `a`. -/
def task_set_state (h : Nat → task_t) (a : Nat) (st : task_state_t) : Nat → task_t :=
  fun x => if x = a then { h x with state := st } else h x

/-- sched_add_task from src/kernel/sched.c:
`run_queue[task->prio] = task;` — an unconditional store. -/
def sched_add_task (s : sched_state_t) (t : Nat) : sched_state_t :=
  { s with queue := fun i => if i = (s.heap t).prio then some t else s.queue i }

/-- sched_remove_task from src/kernel/sched.c:
`run_queue[task->prio] = NULL;` — clears the slot of the task's
priority whatever it holds. -/
def sched_remove_task (s : sched_state_t) (t : Nat) : sched_state_t :=
  { s with queue := fun i => if i = (s.heap t).prio then none else s.queue i }

/-- sched_get_current_task from src/kernel/sched.c. -/
def sched_get_current_task (s : sched_state_t) : Nat :=
  s.current

/-- sched_run from src/kernel/sched.c: read the current task, pick the
next one, mark it RUNNING, make it current, then context-switch (the
switch itself is architecture-opaque and has no effect on this state).
When sched_get_next_task yields NULL the C code dereferences a null
pointer in task_set_state; that outcome is `none`. -/
def sched_run (s : sched_state_t) : Option sched_state_t :=
  match sched_get_next_task s.queue with
  | none => none
  | some nt =>
      some { s with heap := task_set_state s.heap nt task_state_t.RUNNING, current := nt }

/-- The statically defined idle task of src/kernel/sched.c: both id
fields NULL, priority IDLE_PRIO, state READY (the `.stack` initializer
of sched.c has no corresponding field in task.h's struct and carries no
scheduler-visible information). -/
def idle_task : task_t :=
  { task_id := { vms_id := 0, thread_id := 0 }
    prio := IDLE_PRIO
    state := task_state_t.READY
    thread := { ra := 0, sp := 0, s := fun _ => 0 } }

/-- The address of the statically allocated idle_task object (any fixed
nonzero address; 0 is NULL). -/
def idle_task_addr : Nat := 1

/-- sched_init from src/kernel/sched.c:
`current_task = &idle_task; sched_add_task(&idle_task);`. -/
def sched_init (s : sched_state_t) : sched_state_t :=
  sched_add_task { s with current := idle_task_addr } idle_task_addr

/-- A task object with all fields zeroed, the content of untouched heap
addresses. -/
def null_task : task_t :=
  { task_id := { vms_id := 0, thread_id := 0 }
    prio := 0
    state := task_state_t.READY
    thread := { ra := 0, sp := 0, s := fun _ => 0 } }

/-- The state at boot, before sched_init: the static run_queue array is
zero-initialized (all slots NULL), current_task is NULL, and the heap
holds the statically defined idle_task at its address. -/
def boot_state : sched_state_t :=
  { heap := fun a => if a = idle_task_addr then idle_task else null_task
    queue := fun _ => none
    current := 0 }

/-- Modelled from the spec: STACK_SIZE is defined in processor.h, which
is not in src/; spec scenario 4 uses "a stack of 4096 words", so the
stack block is 4096 64-bit words. -/
def STACK_SIZE : Nat := 4096

/-- task_create from src/kernel/task.c.  Faithful to the definition in
task.c (three parameters, no priority argument): both identity fields
are set to 0 (task.c writes them through the names vm_id/thread_id; the
struct in task.h names them task_id.vms_id/task_id.thread_id), ra is
set to the entry function, sp to the integer value of the stack pointer
plus STACK_SIZE - 1 (a byte offset, since the pointer is cast to
uint64_t before the addition), the twelve callee-saved registers are
zeroed, and AX_OK is returned unconditionally.  `stack` is the base
address of the stack block. -/
def task_create (task : task_t) (fn : Nat) (stack : Nat) : ax_return_t × task_t :=
  (ax_return_t.AX_OK,
   { task with
       task_id := { vms_id := 0, thread_id := 0 }
       thread := { ra := fn, sp := stack + STACK_SIZE - 1, s := fun _ => 0 } })

/-- Modelled from the spec: common.h is not in src/; a long word is the
128-bit / 16-byte alignment quantum of §4.2. -/
def LWORD_SIZE : Nat := 16

/-- Modelled from the spec: common.h is not in src/; a double word is
one 64-bit register slot. -/
def DWORD_SIZE : Nat := 8

/-- Modelled from the spec: offsets.h is not in src/.  The kernel-entry
frame holds two 64-bit slots, the program-counter-on-resume (mepc) and
a return-address slot. -/
def KERNEL_STACK_FRAME_LENGTH : Nat := 16

/-- Modelled from the spec: offset of the program-counter-on-resume
slot inside the kernel-entry frame. -/
def KERNEL_STACK_FRAME_MEPC : Nat := 0

/-- Modelled from the spec: offset of the return-address slot inside
the kernel-entry frame. -/
def KERNEL_STACK_FRAME_RA : Nat := 8

/-- Modelled from the spec: offsets.h is not in src/.  The caller-saved
frame holds t0..t6 and a0..a7 (15 64-bit slots) padded to the 16-byte
alignment quantum, preserving the §3 invariant that the resulting stack
pointer stays 16-byte aligned. -/
def CALLER_STACK_FRAME_LENGTH : Nat := 128

/-- Modelled from the spec: t0..t6 slot offsets in the caller-saved
frame. -/
def CALLER_STACK_FRAME_T0 : Nat := 0

def CALLER_STACK_FRAME_T1 : Nat := 8

def CALLER_STACK_FRAME_T2 : Nat := 16

def CALLER_STACK_FRAME_T3 : Nat := 24

def CALLER_STACK_FRAME_T4 : Nat := 32

def CALLER_STACK_FRAME_T5 : Nat := 40

def CALLER_STACK_FRAME_T6 : Nat := 48

/-- Modelled from the spec: a0..a7 slot offsets in the caller-saved
frame; a0 is the first-argument register the trampoline calls through. -/
def CALLER_STACK_FRAME_A0 : Nat := 56

def CALLER_STACK_FRAME_A1 : Nat := 64

def CALLER_STACK_FRAME_A2 : Nat := 72

def CALLER_STACK_FRAME_A3 : Nat := 80

def CALLER_STACK_FRAME_A4 : Nat := 88

def CALLER_STACK_FRAME_A5 : Nat := 96

def CALLER_STACK_FRAME_A6 : Nat := 104

def CALLER_STACK_FRAME_A7 : Nat := 112

/-- Modelled from the spec: offsets.h is not in src/.  The callee-saved
frame holds s0..s11, twelve 64-bit slots. -/
def CALLEE_STACK_FRAME_LENGTH : Nat := 96

def CALLEE_STACK_FRAME_S0 : Nat := 0

def CALLEE_STACK_FRAME_S1 : Nat := 8

def CALLEE_STACK_FRAME_S2 : Nat := 16

def CALLEE_STACK_FRAME_S3 : Nat := 24

def CALLEE_STACK_FRAME_S4 : Nat := 32

def CALLEE_STACK_FRAME_S5 : Nat := 40

def CALLEE_STACK_FRAME_S6 : Nat := 48

def CALLEE_STACK_FRAME_S7 : Nat := 56

def CALLEE_STACK_FRAME_S8 : Nat := 64

def CALLEE_STACK_FRAME_S9 : Nat := 72

def CALLEE_STACK_FRAME_S10 : Nat := 80

def CALLEE_STACK_FRAME_S11 : Nat := 88

/-- A single 64-bit store into the byte-addressed memory image (only
the written slots are tracked; `none` means never written). -/
def mem_write (m : Nat → Option Nat) (a v : Nat) : Nat → Option Nat :=
  fun x => if x = a then some v else m x

/-- task_stack_init from src/arch/task_arch.c, returning the final
`thread.sp` together with the memory image of the stores it performed.
`stack` is the base address of the stack block, `stack_size` its size
in bytes, `task_entry` the task's entry function address,
`rt_addr` the address of the task_runtime trampoline and `ret_addr`
the address of the `_ret_from_interrupt` function pointer (both are
link-time symbols outside src/).  The working pointer starts at
`stack + stack_size - LWORD_SIZE`, then each frame is reserved by
moving the pointer down and storing at the fixed offsets. -/
def task_stack_init (stack stack_size task_entry rt_addr ret_addr : Nat) :
    Nat × (Nat → Option Nat) :=
  let sp0 := stack + stack_size - LWORD_SIZE
  let sp1 := sp0 - KERNEL_STACK_FRAME_LENGTH
  let m1 := mem_write (mem_write (fun _ => none)
              (sp1 + KERNEL_STACK_FRAME_MEPC) rt_addr)
              (sp1 + KERNEL_STACK_FRAME_RA) 0
  let sp2 := sp1 - CALLER_STACK_FRAME_LENGTH
  let m2 := mem_write (mem_write (mem_write (mem_write (mem_write (mem_write
              (mem_write (mem_write (mem_write (mem_write (mem_write (mem_write
              (mem_write (mem_write (mem_write m1
              (sp2 + CALLER_STACK_FRAME_T0) 0)
              (sp2 + CALLER_STACK_FRAME_T1) 0)
              (sp2 + CALLER_STACK_FRAME_T2) 0)
              (sp2 + CALLER_STACK_FRAME_T3) 0)
              (sp2 + CALLER_STACK_FRAME_T4) 0)
              (sp2 + CALLER_STACK_FRAME_T5) 0)
              (sp2 + CALLER_STACK_FRAME_T6) 0)
              (sp2 + CALLER_STACK_FRAME_A0) task_entry)
              (sp2 + CALLER_STACK_FRAME_A1) 0)
              (sp2 + CALLER_STACK_FRAME_A2) 0)
              (sp2 + CALLER_STACK_FRAME_A3) 0)
              (sp2 + CALLER_STACK_FRAME_A4) 0)
              (sp2 + CALLER_STACK_FRAME_A5) 0)
              (sp2 + CALLER_STACK_FRAME_A6) 0)
              (sp2 + CALLER_STACK_FRAME_A7) 0
  let sp3 := sp2 - LWORD_SIZE
  let m3 := mem_write m2 (sp3 + DWORD_SIZE) ret_addr
  let sp4 := sp3 - CALLEE_STACK_FRAME_LENGTH
  let m4 := mem_write (mem_write (mem_write (mem_write (mem_write (mem_write
              (mem_write (mem_write (mem_write (mem_write (mem_write (mem_write m3
              (sp4 + CALLEE_STACK_FRAME_S0) 0)
              (sp4 + CALLEE_STACK_FRAME_S1) 0)
              (sp4 + CALLEE_STACK_FRAME_S2) 0)
              (sp4 + CALLEE_STACK_FRAME_S3) 0)
              (sp4 + CALLEE_STACK_FRAME_S4) 0)
              (sp4 + CALLEE_STACK_FRAME_S5) 0)
              (sp4 + CALLEE_STACK_FRAME_S6) 0)
              (sp4 + CALLEE_STACK_FRAME_S7) 0)
              (sp4 + CALLEE_STACK_FRAME_S8) 0)
              (sp4 + CALLEE_STACK_FRAME_S9) 0)
              (sp4 + CALLEE_STACK_FRAME_S10) 0)
              (sp4 + CALLEE_STACK_FRAME_S11) 0
  (sp4, m4)

/-- The memory image produced by task_stack_init has the shape claimed
for the three register frames: the kernel-entry frame holds the
task_runtime trampoline in its mepc slot and zero in its ra slot, the
caller-saved frame is all zeros except a0 = the entry function, and the
callee-saved frame is all zeros. -/
def stack_image_ok (stack stack_size task_entry rt_addr ret_addr : Nat) : Prop :=
  let r := task_stack_init stack stack_size task_entry rt_addr ret_addr
  let m := r.2
  let kbase := stack + stack_size - LWORD_SIZE - KERNEL_STACK_FRAME_LENGTH
  let cbase := kbase - CALLER_STACK_FRAME_LENGTH
  let sbase := r.1
  m (kbase + KERNEL_STACK_FRAME_MEPC) = some rt_addr ∧
  m (kbase + KERNEL_STACK_FRAME_RA) = some 0 ∧
  m (cbase + CALLER_STACK_FRAME_T0) = some 0 ∧
  m (cbase + CALLER_STACK_FRAME_T1) = some 0 ∧
  m (cbase + CALLER_STACK_FRAME_T2) = some 0 ∧
  m (cbase + CALLER_STACK_FRAME_T3) = some 0 ∧
  m (cbase + CALLER_STACK_FRAME_T4) = some 0 ∧
  m (cbase + CALLER_STACK_FRAME_T5) = some 0 ∧
  m (cbase + CALLER_STACK_FRAME_T6) = some 0 ∧
  m (cbase + CALLER_STACK_FRAME_A0) = some task_entry ∧
  m (cbase + CALLER_STACK_FRAME_A1) = some 0 ∧
  m (cbase + CALLER_STACK_FRAME_A2) = some 0 ∧
  m (cbase + CALLER_STACK_FRAME_A3) = some 0 ∧
  m (cbase + CALLER_STACK_FRAME_A4) = some 0 ∧
  m (cbase + CALLER_STACK_FRAME_A5) = some 0 ∧
  m (cbase + CALLER_STACK_FRAME_A6) = some 0 ∧
  m (cbase + CALLER_STACK_FRAME_A7) = some 0 ∧
  m (sbase + CALLEE_STACK_FRAME_S0) = some 0 ∧
  m (sbase + CALLEE_STACK_FRAME_S1) = some 0 ∧
  m (sbase + CALLEE_STACK_FRAME_S2) = some 0 ∧
  m (sbase + CALLEE_STACK_FRAME_S3) = some 0 ∧
  m (sbase + CALLEE_STACK_FRAME_S4) = some 0 ∧
  m (sbase + CALLEE_STACK_FRAME_S5) = some 0 ∧
  m (sbase + CALLEE_STACK_FRAME_S6) = some 0 ∧
  m (sbase + CALLEE_STACK_FRAME_S7) = some 0 ∧
  m (sbase + CALLEE_STACK_FRAME_S8) = some 0 ∧
  m (sbase + CALLEE_STACK_FRAME_S9) = some 0 ∧
  m (sbase + CALLEE_STACK_FRAME_S10) = some 0 ∧
  m (sbase + CALLEE_STACK_FRAME_S11) = some 0

/-- Concrete queue for the C1 counterexample: distinct tasks at
priorities 3, 5 and 7. -/
def c1_queue : run_queue_t := fun i =>
  if i = 3 then some 10 else if i = 5 then some 11 else if i = 7 then some 12 else none

/-- Concrete queue for the C1 witness: tasks at priorities 3 and 5
only. -/
def c1w_queue : run_queue_t := fun i =>
  if i = 3 then some 10 else if i = 5 then some 11 else none

/-- If slot `p` is occupied and every slot strictly between `p` and
`idx` is empty, the descending scan started at `idx` (with the exact
fuel it has left at that point) breaks at `p`. -/
lemma sched_scan_break (q : run_queue_t) :
    ∀ idx, idx < 255 → ∀ p, p ≤ idx → (q p).isSome →
      (∀ j, p < j → j ≤ idx → q j = none) →
      sched_scan q (idx + 1) idx = some p := by
  intro idx
  induction idx with
  | zero =>
      intro _ p hp hq _
      have hp0 : p = 0 := Nat.le_zero.mp hp
      subst hp0
      simp [sched_scan, hq]
  | succ n ih =>
      intro hlt p hp hq hup
      rcases Nat.eq_or_lt_of_le hp with heq | hlt'
      · subst heq
        simp [sched_scan, hq]
      · have hnone : q (n + 1) = none := hup (n + 1) (by omega) (Nat.le_refl _)
        have hmod : (n + 1 + 255) % 256 = n := by omega
        simp only [sched_scan, hnone, Option.isSome_none, Bool.false_eq_true, if_false, hmod]
        exact ih (by omega) p (by omega) hq (fun j h1 h2 => hup j h1 (by omega))

/-- If slot 0 is occupied, the descending scan started at any index
below 255 breaks at some occupied slot before its fuel runs out. -/
lemma sched_scan_hits (q : run_queue_t) (h0 : (q 0).isSome) :
    ∀ idx, idx < 255 → ∃ j, sched_scan q (idx + 1) idx = some j ∧ (q j).isSome := by
  intro idx
  induction idx with
  | zero =>
      exact fun _ => ⟨0, by simp [sched_scan, h0], h0⟩
  | succ n ih =>
      intro hlt
      by_cases hq : (q (n + 1)).isSome
      · exact ⟨n + 1, by simp [sched_scan, hq], hq⟩
      · obtain ⟨j, hj, hjs⟩ := ih (by omega)
        have hmod : (n + 1 + 255) % 256 = n := by omega
        refine ⟨j, ?_, hjs⟩
        simp only [sched_scan, hq, if_false, hmod]
        exact hj

/-- An all-empty queue never lets the scan break, whatever the fuel and
start index: the loop guard `prio_idx >= 0` on a uint8_t never becomes
false, so nothing but an occupied slot stops the loop. -/
lemma sched_scan_all_none (q : run_queue_t) (h : ∀ i, q i = none) :
    ∀ fuel idx, sched_scan q fuel idx = none := by
  intro fuel
  induction fuel with
  | zero => intro idx; rfl
  | succ n ih => intro idx; simp [sched_scan, h idx, ih]

/-- Whatever sched_get_next_task returns was stored in some slot of the
queue. -/
lemma sched_get_next_task_mem (q : run_queue_t) (a : Nat)
    (h : sched_get_next_task q = some a) : ∃ j, q j = some a := by
  unfold sched_get_next_task at h
  cases hs : sched_scan q MAX_PRIO ( MAX_PRIO - 1) with
  | none => rw [hs] at h; exact absurd h (by simp)
  | some j => rw [hs] at h; exact ⟨j, h⟩

/-- C1 counterexample: with ready tasks at priorities 3, 5 and 7, the
priority levels p1 = 3 < p2 = 5 both hold a ready task, yet
sched_get_next_task does not return the task stored at level 5 (it
returns the one at level 7). -/
theorem sched_get_next_task_not_at_p2 :
    (3 : Nat) < 5 ∧ (c1_queue 3).isSome ∧ (c1_queue 5).isSome ∧
      sched_get_next_task c1_queue ≠ c1_queue 5 := by
  decide

/-- C1 (amended): sched_get_next_task returns the task stored at the
highest occupied priority level; in particular, for p1 < p2 both
holding ready tasks, with p2 the topmost occupied level, it returns the
task at p2. -/
theorem sched_get_next_task_topmost (q : run_queue_t) (p1 p2 : Nat)
    (h12 : p1 < p2) (h2lt : p2 < 255) (h1 : (q p1).isSome) (h2 : (q p2).isSome)
    (htop : ∀ j, p2 < j → j < 255 → q j = none) :
    sched_get_next_task q = q p2 := by
  have hb : sched_scan q (254 + 1) 254 = some p2 :=
    sched_scan_break q 254 (by omega) p2 (by omega) h2
      (fun j hj hj' => htop j hj (by omega))
  have hb' : sched_scan q MAX_PRIO ( MAX_PRIO - 1) = some p2 := hb
  simp [sched_get_next_task, hb']

/-- C1 witness: on the two-task queue with tasks at 3 and 5 only,
sched_get_next_task returns the slot-5 task. -/
theorem sched_get_next_task_topmost_witness :
    (3 : Nat) < 5 ∧ sched_get_next_task c1w_queue = c1w_queue 5 :=
  ⟨by decide,
   sched_get_next_task_topmost c1w_queue 3 5 (by decide) (by decide) (by decide)
     (by decide)
     (by
       intro j h1 h2
       simp only [c1w_queue]
       split_ifs <;> first | rfl | omega)⟩

/-- Concrete queue for the C2 witness: only the idle slot 0 is
occupied. -/
def c2_queue : run_queue_t := fun i => if i = 0 then some 1 else none

/-- C2: whenever slot 0 is occupied (the idle-task invariant), the
descending scan of sched_get_next_task breaks out within its single
pass 254, ..., 0 and the function returns a non-NULL task; and the
termination really is due to the occupied slot, not to the unsigned
loop index: on an everywhere-empty queue the scan never breaks,
whatever fuel and start index it is given (the C loop guard
`prio_idx >= 0` never becomes false). -/
theorem sched_get_next_task_total (q : run_queue_t) (h0 : (q 0).isSome) :
    (sched_get_next_task q).isSome ∧
      ∀ q' : run_queue_t, (∀ i, q' i = none) →
        ∀ fuel idx, sched_scan q' fuel idx = none := by
  constructor
  · obtain ⟨j, hj, hjs⟩ := sched_scan_hits q h0 254 (by omega)
    have hj' : sched_scan q MAX_PRIO ( MAX_PRIO - 1) = some j := hj
    simpa [sched_get_next_task, hj'] using hjs
  · exact fun q' h => sched_scan_all_none q' h

/-- C2 witness: a queue holding only the idle task at slot 0. -/
theorem sched_get_next_task_total_witness :
    (c2_queue 0).isSome ∧
      ((sched_get_next_task c2_queue).isSome ∧
        ∀ q' : run_queue_t, (∀ i, q' i = none) →
          ∀ fuel idx, sched_scan q' fuel idx = none) :=
  ⟨by decide, sched_get_next_task_total c2_queue (by decide)⟩

/-- C3: contrary to the claim (and to the five-parameter prototype with
a priority argument declared in src/kernel/task.h), the task_create of
src/kernel/task.c takes no priority at all, performs no validation,
returns AX_OK unconditionally, and never writes the task's state or
priority fields. -/
theorem task_create_no_validation (task : task_t) (fn stack : Nat) :
    (task_create task fn stack).1 = ax_return_t.AX_OK ∧
      (task_create task fn stack).2.state = task.state ∧
      (task_create task fn stack).2.prio = task.prio :=
  ⟨rfl, rfl, rfl⟩

/-- Heap for the C4 counterexample: a single READY priority-0 task at
address 1 (exactly the situation right after sched_init, with the idle
task both current and selected next). -/
def c4_state : sched_state_t :=
  { heap := fun a => if a = 1 then
      { task_id := { vms_id := 0, thread_id := 0 }
        prio := 0
        state := task_state_t.READY
        thread := { ra := 0, sp := 0, s := fun _ => 0 } }
      else null_task
    queue := fun i => if i = 0 then some 1 else none
    current := 1 }

/-- C4 counterexample: in the state where the current task is also the
task sched_get_next_task selects (current = idle, READY, alone in the
queue), sched_run does change the previously current task's state
field: it was READY before the call and is RUNNING afterwards, because
prev_task and new_task alias the same task object. -/
theorem sched_run_prev_state_changed :
    ((sched_run c4_state).map fun s1 => (s1.heap c4_state.current).state) =
        some task_state_t.RUNNING ∧
      (c4_state.heap c4_state.current).state = task_state_t.READY := by
  decide

/-- C4 (amended): whenever sched_get_next_task selects a task distinct
from the current one, sched_run leaves the previously current task's
state field untouched, sets the selected task's state to RUNNING and
makes it the current task; when the two coincide, the shared state
field becomes RUNNING. -/
theorem sched_run_spec (s : sched_state_t) (nt : Nat)
    (hnext : sched_get_next_task s.queue = some nt) (hne : nt ≠ s.current) :
    ∃ s1, sched_run s = some s1 ∧ s1.current = nt ∧
      (s1.heap nt).state = task_state_t.RUNNING ∧
      (s1.heap s.current).state = (s.heap s.current).state := by
  refine ⟨{ s with heap := task_set_state s.heap nt task_state_t.RUNNING, current := nt },
    ?_, rfl, ?_, ?_⟩
  · simp [sched_run, hnext]
  · simp [task_set_state]
  · have : s.current ≠ nt := fun h => hne h.symm
    simp [task_set_state, this]

/-- State for the C4 witness: the idle task (address 1, priority 0) is
current, and a READY task at address 2 sits at priority 5. -/
def c4w_state : sched_state_t :=
  { heap := fun a =>
      if a = 1 then idle_task
      else if a = 2 then
        { task_id := { vms_id := 0, thread_id := 0 }
          prio := 5
          state := task_state_t.READY
          thread := { ra := 0, sp := 0, s := fun _ => 0 } }
      else null_task
    queue := fun i => if i = 0 then some 1 else if i = 5 then some 2 else none
    current := 1 }

/-- C4 witness: switching from the idle task to the distinct priority-5
task. -/
theorem sched_run_spec_witness :
    sched_get_next_task c4w_state.queue = some 2 ∧
      ∃ s1, sched_run c4w_state = some s1 ∧ s1.current = 2 ∧
        (s1.heap 2).state = task_state_t.RUNNING ∧
        (s1.heap c4w_state.current).state = (c4w_state.heap c4w_state.current).state :=
  ⟨by decide, sched_run_spec c4w_state 2 (by decide) (by decide)⟩

/-- C5 counterexample: for the stack block at base 8 (a valid placement
of a uint64_t array) with size 272, the stack pointer computed by
task_stack_init is not 16-byte aligned, and even the initial working
pointer is base + size - LWORD_SIZE, which differs from base + size
rounded down to 16-byte alignment. -/
theorem task_stack_init_sp_misaligned :
    (task_stack_init 8 272 1000 2000 3000).1 % 16 ≠ 0 ∧
      8 + 272 - LWORD_SIZE ≠ 16 * ((8 + 272) / 16) := by
  decide

/-- C5 (amended): when the stack base is 16-byte aligned and the size
is a multiple of 16 at least as large as the 272 bytes the builder
reserves, the resulting stack pointer is 16-byte aligned and lies in
[base, base + size); the working pointer starts at
base + size - LWORD_SIZE (the last 16-byte long word of the block,
itself 16-byte aligned under these hypotheses), not at base + size
rounded down to the alignment. -/
theorem task_stack_init_sp_aligned (stack stack_size task_entry rt_addr ret_addr : Nat)
    (hbase : stack % 16 = 0) (hsize : stack_size % 16 = 0)
    (hmin : 272 ≤ stack_size) :
    (task_stack_init stack stack_size task_entry rt_addr ret_addr).1 % 16 = 0 ∧
      stack ≤ (task_stack_init stack stack_size task_entry rt_addr ret_addr).1 ∧
      (task_stack_init stack stack_size task_entry rt_addr ret_addr).1 <
        stack + stack_size ∧
      (stack + stack_size - LWORD_SIZE) % 16 = 0 := by
  simp only [task_stack_init, LWORD_SIZE, DWORD_SIZE, KERNEL_STACK_FRAME_LENGTH,
    CALLER_STACK_FRAME_LENGTH, CALLEE_STACK_FRAME_LENGTH]
  omega

/-- C5 witness: a 16-byte aligned base with a 4096-word (32768-byte)
stack. -/
theorem task_stack_init_sp_aligned_witness :
    272 ≤ 32768 ∧
      ((task_stack_init 16 32768 1000 2000 3000).1 % 16 = 0 ∧
        16 ≤ (task_stack_init 16 32768 1000 2000 3000).1 ∧
        (task_stack_init 16 32768 1000 2000 3000).1 < 16 + 32768 ∧
        (16 + 32768 - LWORD_SIZE) % 16 = 0) :=
  ⟨by decide,
   task_stack_init_sp_aligned 16 32768 1000 2000 3000 (by decide) (by decide) (by decide)⟩


/-- Pointwise reading of a single store. -/
lemma mem_write_apply (m : Nat → Option Nat) (a v x : Nat) :
    mem_write m a v x = if x = a then some v else m x := rfl

/-- C6: provided the stack is at least as large as the 272 bytes the
builder reserves, the memory image written by task_stack_init satisfies
the claimed frame contents: kernel-entry frame mepc = task_runtime
trampoline and ra = 0; caller-saved frame all zero except a0 = the
entry function; callee-saved frame all zero. -/
theorem task_stack_init_frames (stack stack_size task_entry rt_addr ret_addr : Nat)
    (hmin : 272 ≤ stack_size) :
    stack_image_ok stack stack_size task_entry rt_addr ret_addr := by
  obtain ⟨u, hu⟩ : ∃ u, stack + stack_size = u + 272 :=
    ⟨stack + stack_size - 272, by omega⟩
  simp only [stack_image_ok, task_stack_init, LWORD_SIZE, DWORD_SIZE,
    KERNEL_STACK_FRAME_LENGTH, KERNEL_STACK_FRAME_MEPC, KERNEL_STACK_FRAME_RA,
    CALLER_STACK_FRAME_LENGTH, CALLER_STACK_FRAME_T0, CALLER_STACK_FRAME_T1,
    CALLER_STACK_FRAME_T2, CALLER_STACK_FRAME_T3, CALLER_STACK_FRAME_T4,
    CALLER_STACK_FRAME_T5, CALLER_STACK_FRAME_T6, CALLER_STACK_FRAME_A0,
    CALLER_STACK_FRAME_A1, CALLER_STACK_FRAME_A2, CALLER_STACK_FRAME_A3,
    CALLER_STACK_FRAME_A4, CALLER_STACK_FRAME_A5, CALLER_STACK_FRAME_A6,
    CALLER_STACK_FRAME_A7, CALLEE_STACK_FRAME_LENGTH, CALLEE_STACK_FRAME_S0,
    CALLEE_STACK_FRAME_S1, CALLEE_STACK_FRAME_S2, CALLEE_STACK_FRAME_S3,
    CALLEE_STACK_FRAME_S4, CALLEE_STACK_FRAME_S5, CALLEE_STACK_FRAME_S6,
    CALLEE_STACK_FRAME_S7, CALLEE_STACK_FRAME_S8, CALLEE_STACK_FRAME_S9,
    CALLEE_STACK_FRAME_S10, CALLEE_STACK_FRAME_S11]
  rw [hu]
  have e1 : u + 272 - 16 = u + 256 := by omega
  rw [e1]
  have e2 : u + 256 - 16 = u + 240 := by omega
  rw [e2]
  have e3 : u + 240 - 128 = u + 112 := by omega
  rw [e3]
  have e4 : u + 112 - 16 = u + 96 := by omega
  rw [e4]
  have e5 : u + 96 - 96 = u := by omega
  rw [e5]
  norm_num [mem_write_apply, Nat.add_assoc, Nat.add_left_cancel_iff,
    Nat.self_eq_add_right, Nat.add_right_eq_self]

/-- C6 witness: a 512-byte stack at base 0 with entry function 1000,
trampoline 2000 and interrupt-return pointer 3000. -/
theorem task_stack_init_frames_witness :
    272 ≤ 512 ∧ stack_image_ok 0 512 1000 2000 3000 :=
  ⟨by decide, task_stack_init_frames 0 512 1000 2000 3000 (by decide)⟩

/-- C7: sched_add_task stores the task at run_queue[task->prio],
unconditionally overwriting the slot; after add(A) then add(B) at the
same in-range priority p (A and B distinct task objects, A not already
queued elsewhere), slot p holds B and A is nowhere in the queue. -/
theorem sched_add_task_overwrites (s : sched_state_t) (A B p : Nat)
    (hA : (s.heap A).prio = p) (hB : (s.heap B).prio = p)
    (hrange : p < 255) (hAB : A ≠ B)
    (hfresh : ∀ i, s.queue i ≠ some A) :
    (sched_add_task s A).queue p = some A ∧
      (sched_add_task (sched_add_task s A) B).queue p = some B ∧
      ∀ i, (sched_add_task (sched_add_task s A) B).queue i ≠ some A := by
  refine ⟨by simp [sched_add_task, hA], by simp [sched_add_task, hA, hB], ?_⟩
  intro i
  by_cases hip : i = p
  · subst hip
    simp [sched_add_task, hA, hB, Ne.symm hAB]
  · simp only [sched_add_task, hA, hB, if_neg hip]
    exact hfresh i

/-- State for the C7 witness: two distinct priority-5 task objects at
addresses 10 and 11, empty queue. -/
def c7_state : sched_state_t :=
  { heap := fun a =>
      if a = 10 ∨ a = 11 then
        { task_id := { vms_id := 0, thread_id := 0 }
          prio := 5
          state := task_state_t.READY
          thread := { ra := 0, sp := 0, s := fun _ => 0 } }
      else null_task
    queue := fun _ => none
    current := 0 }

/-- C7 witness: add task 10 then task 11, both at priority 5. -/
theorem sched_add_task_overwrites_witness :
    (10 : Nat) ≠ 11 ∧
      ((sched_add_task c7_state 10).queue 5 = some 10 ∧
        (sched_add_task (sched_add_task c7_state 10) 11).queue 5 = some 11 ∧
        ∀ i, (sched_add_task (sched_add_task c7_state 10) 11).queue i ≠ some 10) :=
  ⟨by decide,
   sched_add_task_overwrites c7_state 10 11 5 (by decide) (by decide) (by decide)
     (by decide) (fun i h => Option.noConfusion h)⟩

/-- C8: sched_remove_task clears the slot of the task's priority
regardless of what the slot holds, leaves every other slot unchanged,
and afterwards (the task being queued nowhere else) sched_get_next_task
never returns the removed task. -/
theorem sched_remove_task_clears (s : sched_state_t) (t p : Nat)
    (hp : (s.heap t).prio = p) (hrange : p < 255)
    (hfresh : ∀ i, i ≠ p → s.queue i ≠ some t) :
    (sched_remove_task s t).queue p = none ∧
      (∀ i, i ≠ p → (sched_remove_task s t).queue i = s.queue i) ∧
      sched_get_next_task (sched_remove_task s t).queue ≠ some t := by
  refine ⟨by simp [sched_remove_task, hp], ?_, ?_⟩
  · intro i hi
    simp [sched_remove_task, hp, hi]
  · intro hcontra
    obtain ⟨j, hj⟩ := sched_get_next_task_mem _ t hcontra
    by_cases hjp : j = p
    · subst hjp
      revert hj
      simp [sched_remove_task, hp]
    · simp only [sched_remove_task, hp, if_neg hjp] at hj
      exact hfresh j hjp hj

/-- State for the C8 witness: the idle task at address 1 sits at slot 0
and a priority-5 task at address 10 sits at slot 5. -/
def c8_state : sched_state_t :=
  { heap := fun a =>
      if a = 10 then
        { task_id := { vms_id := 0, thread_id := 0 }
          prio := 5
          state := task_state_t.READY
          thread := { ra := 0, sp := 0, s := fun _ => 0 } }
      else if a = 1 then idle_task
      else null_task
    queue := fun i => if i = 5 then some 10 else if i = 0 then some 1 else none
    current := 1 }

/-- C8 witness: removing the priority-5 task. -/
theorem sched_remove_task_clears_witness :
    (5 : Nat) < 255 ∧
      ((sched_remove_task c8_state 10).queue 5 = none ∧
        (∀ i, i ≠ 5 → (sched_remove_task c8_state 10).queue i = c8_state.queue i) ∧
        sched_get_next_task (sched_remove_task c8_state 10).queue ≠ some 10) :=
  ⟨by decide,
   sched_remove_task_clears c8_state 10 5 (by decide) (by decide)
     (by
       intro i hi h
       simp only [c8_state] at h
       split_ifs at h with h1 h2
       · exact hi h1
       · simp at h)⟩

/-- C9: sched_init points current_task at the idle task and installs
the idle task in run-queue slot 0 (through sched_add_task, using the
idle task's priority field, 0), leaving every other slot untouched —
so a second init after tasks were added resets only current-task and
slot 0; and on the zero-initialized boot state, sched_get_next_task
returns the idle task right after the first init. -/
theorem sched_init_resets (s : sched_state_t)
    (hidle : (s.heap idle_task_addr).prio = 0) :
    (sched_init s).current = idle_task_addr ∧
      (sched_init s).queue 0 = some idle_task_addr ∧
      (∀ i, i ≠ 0 → (sched_init s).queue i = s.queue i) ∧
      sched_get_next_task (sched_init boot_state).queue = some idle_task_addr := by
  refine ⟨rfl, ?_, ?_, ?_⟩
  · simp [sched_init, sched_add_task, hidle]
  · intro i hi
    simp [sched_init, sched_add_task, hidle, hi]
  · decide

/-- C9 witness: sched_init applied to the boot state itself. -/
theorem sched_init_resets_witness :
    (boot_state.heap idle_task_addr).prio = 0 ∧
      ((sched_init boot_state).current = idle_task_addr ∧
        (sched_init boot_state).queue 0 = some idle_task_addr ∧
        (∀ i, i ≠ 0 → (sched_init boot_state).queue i = boot_state.queue i) ∧
        sched_get_next_task (sched_init boot_state).queue = some idle_task_addr) :=
  ⟨by decide, sched_init_resets boot_state (by decide)⟩

/-- C10: task_create returns AX_OK, stores the entry function in
thread.ra, sets thread.sp to the stack base plus STACK_SIZE - 1 bytes
(an odd offset into the block), zeroes the twelve saved callee
registers, zeroes both identity fields, and leaves the task's state and
priority exactly as they were. -/
theorem task_create_fields (task : task_t) (fn stack : Nat) :
    (task_create task fn stack).1 = ax_return_t.AX_OK ∧
      (task_create task fn stack).2.thread.ra = fn ∧
      (task_create task fn stack).2.thread.sp = stack + STACK_SIZE - 1 ∧
      (STACK_SIZE - 1) % 2 = 1 ∧
      (∀ i : Fin 12, (task_create task fn stack).2.thread.s i = 0) ∧
      (task_create task fn stack).2.task_id.vms_id = 0 ∧
      (task_create task fn stack).2.task_id.thread_id = 0 ∧
      (task_create task fn stack).2.state = task.state ∧
      (task_create task fn stack).2.prio = task.prio :=
  ⟨rfl, rfl, rfl, by decide, fun _ => rfl, rfl, rfl, rfl, rfl⟩
